import Mathlib

/-!
Shallow embedding of `src/run_inference.py` (AWC wildlife classifier CLI).

The script is a single-file orchestrator: it loads a YAML configuration,
loads a species-label file, validates the image folder, discovers images,
resolves an output path stem with `pathlib`, and invokes the external
`DetectAndClassify` pipeline, mapping exceptions to exit statuses.

Conventions of the embedding:
- POSIX paths are modelled by `AWC.PPath` (a relative/absolute flag plus the
  list of non-empty, non-"." components), mirroring how `pathlib.PurePosixPath`
  parses strings.  The rare POSIX double-slash root ("//a") is modelled the
  same as a single slash; no claim touches it.
- Configuration values are modelled as strings, since every claim only
  involves string-valued keys; the mapping is an association list.
- Exceptions raised by the script are the inductive `AWC.PyExc`; the
  `try/except` ladder at the bottom of `main` is `AWC.mapExc`.
- Filesystem effects (directory creation by `Path.mkdir(parents=True,
  exist_ok=True)`) are modelled on an explicit list of existing directories.
-/

namespace AWC

/-- Python suffix of a final path component: the substring from the last
dot, provided that dot is neither the first nor the last character
(`PurePath.suffix`). -/
def pySuffix (name : String) : String :=
  let cs := name.toList
  match cs.reverse.findIdx? (fun c => c == '.') with
  | none => ""
  | some r =>
    let i := cs.length - 1 - r
    if 0 < i ∧ i < cs.length - 1 then String.mk (cs.drop i) else ""

/-- Effect of name.with_suffix('') on a final path component: remove `pySuffix name`
(only the last extension; a leading-dot name like ".bashrc" and a trailing-dot
name are left unchanged). -/
def stripExt (name : String) : String :=
  let cs := name.toList
  match cs.reverse.findIdx? (fun c => c == '.') with
  | none => name
  | some r =>
    let i := cs.length - 1 - r
    if 0 < i ∧ i < cs.length - 1 then String.mk (cs.take i) else name

/-- Splitting a character list at every '/', keeping empty pieces (the
behaviour of splitting a path string on the separator). -/
def splitOnSlash : List Char → List (List Char)
  | [] => [[]]
  | c :: rest =>
    let r := splitOnSlash rest
    if c == '/' then [] :: r
    else
      match r with
      | [] => [[c]]
      | h :: t => (c :: h) :: t

/-- Whether a path string starts with the separator '/'. -/
def leadingSlash (s : String) : Bool :=
  match s.toList with
  | c :: _ => c == '/'
  | [] => false

/-- A POSIX path as `pathlib.PurePosixPath` stores it: an absolute flag and
the component list with empty and "." components dropped. -/
structure PPath where
  absolute : Bool
  parts : List String
deriving DecidableEq, Repr

/-- Parsing PurePosixPath(s): split on "/", drop empty and current-directory
components, remember whether the string started with "/". -/
def parsePath (s : String) : PPath :=
  { absolute := leadingSlash s
    parts := ((splitOnSlash s.toList).map (fun cs => String.mk cs)).filter
      (fun p => p != "" && p != ".") }

/-- Printing str(p) for the path model: "." for an empty relative path, "/" for the
bare root, otherwise the components joined by "/". -/
def PPath.toString (p : PPath) : String :=
  if p.parts.isEmpty then (if p.absolute then "/" else ".")
  else (if p.absolute then "/" else "") ++ String.intercalate "/" p.parts

/-- Property p.name: the final component, or "" when there is none. -/
def PPath.name (p : PPath) : String := p.parts.getLast?.getD ""

/-- Property p.parent: drop the final component; the empty path is its own parent. -/
def PPath.parent (p : PPath) : PPath :=
  if p.parts.isEmpty then p else { p with parts := p.parts.dropLast }

/-- Join p / s for a single component `s` (the script only joins one name). -/
def PPath.child (p : PPath) (s : String) : PPath :=
  { p with parts := p.parts ++ [s] }

/-- Replace the final component by its extension-stripped form (the component
change performed by `with_suffix('')`). -/
def PPath.stripLastExt (p : PPath) : PPath :=
  match p.parts.getLast? with
  | none => p
  | some n => { p with parts := p.parts.dropLast ++ [stripExt n] }

/-- Method p.with_suffix(''): raises `ValueError` when the path has an empty name
(e.g. `Path('.')` or `Path('/')`), otherwise strips the last extension. -/
def PPath.withSuffixEmpty (p : PPath) : Except String PPath :=
  if p.parts.isEmpty then .error (p.toString ++ " has an empty name")
  else .ok p.stripLastExt

/-- All prefixes of the path (the directories `mkdir(parents=True)` ensures
exist, from the outermost ancestor down to the path itself). -/
def PPath.ancestors (p : PPath) : List PPath :=
  (List.range p.parts.length).map
    (fun i => { absolute := p.absolute, parts := p.parts.take (i + 1) })

/-- The filesystem's directory set, as a list of existing directories. -/
def dirExists (fs : List PPath) (d : PPath) : Prop := d ∈ fs

/-- Call d.mkdir(parents=True, exist_ok=True): make `d` and all its ancestors
exist; never fails, in particular not when a directory already exists. -/
def runMkdirParents (fs : List PPath) (d : PPath) : List PPath :=
  d.ancestors ++ fs

/-- Exceptions the script can raise, tagged by their Python class as far as
the `except` ladder distinguishes them: `FileNotFoundError`, `ValueError`,
`KeyError` (not a `ValueError`!), and anything else. -/
inductive PyExc where
  | fileNotFound (msg : String)
  | valueError (msg : String)
  | keyError (key : String)
  | other (msg : String)
deriving DecidableEq, Repr

/-- A parsed configuration document: an association list of string keys to
string values (every claim only involves string-valued keys). -/
abbrev Config := List (String × String)

/-- List required_fields = ["detector_path", "classifier_path"] in
`load_config`; note `label_path` is absent from this list. -/
def requiredFields : List String := ["detector_path", "classifier_path"]

/-- Test field in config for a dict modelled as an association list. -/
def hasKey (config : Config) (k : String) : Bool :=
  config.any (fun kv => kv.1 == k)

/-- Subscript config[k] returning `none` where Python raises `KeyError`. -/
def getItem (config : Config) (k : String) : Option String :=
  (config.find? (fun kv => kv.1 == k)).map (fun kv => kv.2)

/-- Lookup config.get(k, d). -/
def getDefault (config : Config) (k d : String) : String :=
  (getItem config k).getD d

/-- Python whitespace, as stripped by str.strip() with no argument. -/
def pyIsSpace (c : Char) : Bool :=
  c == ' ' || c == '\t' || c == '\n' || c == '\r' || c == '\x0b' || c == '\x0c'

/-- Python line.strip(): drop leading and trailing whitespace. -/
def pyStrip (s : String) : String :=
  String.mk (((s.toList.dropWhile pyIsSpace).reverse.dropWhile pyIsSpace).reverse)

/-- Python line.startswith("#"): whether the first character is '#'. -/
def startsWithHash (s : String) : Bool :=
  match s.toList with
  | c :: _ => c == '#'
  | [] => false

/-- The line filter of `load_labels`: keep a stripped line when it is
non-empty and does not start with "#". -/
def keepLabelLine (line : String) : Bool :=
  line != "" && !(startsWithHash line)

/-- The parts of the outside world `main` consults, fixed for one run:
whether the config file exists and what parsing it yields (the parser's
exception is supplied abstractly, since PyYAML is external), the label file,
the image folder, the discovered image list, and whether the external
pipeline constructor / `predict` call raise. -/
structure Env where
  configFileExists : Bool
  parseResult : Except PyExc Config
  labelFileExists : Bool
  labelLines : List String
  imageFolderExists : Bool
  imageFolderIsDir : Bool
  imagePaths : List String
  pipelineInitExc : Option PyExc
  predictExc : Option PyExc

/-- Function load_config(config_path): `FileNotFoundError` when the file is absent,
the parser's exception when parsing fails, `ValueError` listing every missing
required field, otherwise the parsed mapping unchanged. -/
def load_config (env : Env) (config_path : String) : Except PyExc Config :=
  if !env.configFileExists then
    .error (.fileNotFound ("Config file not found: " ++ config_path))
  else
    match env.parseResult with
    | .error e => .error e
    | .ok config =>
      let missing := requiredFields.filter (fun f => !(hasKey config f))
      if !missing.isEmpty then
        .error (.valueError
          ("Missing required config fields: " ++ String.intercalate ", " missing))
      else .ok config

/-- Function load_labels(label_path): `FileNotFoundError` when the file is absent;
otherwise strip each line, keep non-empty non-comment lines in file order,
and raise `ValueError` when nothing remains. -/
def load_labels (env : Env) (label_path : String) : Except PyExc (List String) :=
  if !env.labelFileExists then
    .error (.fileNotFound ("Labels file not found: " ++ label_path))
  else
    let labels := (env.labelLines.map pyStrip).filter keepLabelLine
    if labels.isEmpty then
      .error (.valueError ("No labels found in " ++ label_path))
    else .ok labels

/-- Expression args.output or config.get("output_name", "results"): Python `or`
treats an empty-string CLI value as falsy and falls through to the config. -/
def effectiveOutputName (cliOutput : Option String) (config : Config) : String :=
  match cliOutput with
  | some s => if s == "" then getDefault config "output_name" "results" else s
  | none => getDefault config "output_name" "results"

/-- The output-stem resolution block of `main` (lines 218-223):
strip the last extension with `with_suffix('')` (which raises `ValueError`
on an empty name); when the parent prints as "." the caller gave a bare
filename and the stem is `image_folder / name`; otherwise the stem is the
stripped path itself and `parent.mkdir(parents=True, exist_ok=True)` is
called — the returned option records that mkdir target. -/
def resolveOutputStem (requested : String) (image_folder : PPath) :
    Except PyExc (PPath × Option PPath) :=
  match (parsePath requested).withSuffixEmpty with
  | .error m => .error (.valueError m)
  | .ok p =>
    if p.parent.toString == "." then
      .ok (image_folder.child p.name, none)
    else
      .ok (p, some p.parent)

/-- The command-line arguments of one run. -/
structure Args where
  image_folder : String
  config : String
  output : Option String

/-- Terminal outcome of a run, one constructor per exit path of `main`:
the two exit-0 paths (success and the no-images warning) and the three
`except` branches, each carrying the logged message and exiting 1. -/
inductive Outcome where
  | success (csvPath jsonPath : String)
  | noImages
  | errFileNotFound (msg : String)
  | errConfiguration (msg : String)
  | errUnexpected (msg : String)
deriving DecidableEq, Repr

/-- The `except` ladder of `main`: `FileNotFoundError` → "File not found",
`ValueError` → "Configuration error", everything else (including `KeyError`)
→ "Unexpected error". -/
def mapExc : PyExc → Outcome
  | .fileNotFound m => .errFileNotFound m
  | .valueError m => .errConfiguration m
  | .keyError k => .errUnexpected ("KeyError: " ++ k)
  | .other m => .errUnexpected m

/-- The process exit status of each outcome: 0 for success and for the
no-images warning, 1 for every handled error. -/
def exitCode : Outcome → Nat
  | .success _ _ => 0
  | .noImages => 0
  | .errFileNotFound _ => 1
  | .errConfiguration _ => 1
  | .errUnexpected _ => 1

/-- Whether an outcome is the "Configuration error" category. -/
def Outcome.isConfigurationError : Outcome → Bool
  | .errConfiguration _ => true
  | _ => false

/-- Whether an outcome is the "Unexpected error" category. -/
def Outcome.isUnexpectedError : Outcome → Bool
  | .errUnexpected _ => true
  | _ => false

/-- Result of one run: the terminal outcome and whether the pipeline's
`predict` was invoked. -/
structure RunResult where
  outcome : Outcome
  predictCalled : Bool
deriving DecidableEq, Repr

/-- The body of `main` with its `try/except` ladder: load config, read
`config["label_path"]` (a `KeyError` when absent — caught by the generic
handler, not the `ValueError` one), load labels, validate the image folder,
discover images (warning and exit 0 when none), determine the output name,
construct the pipeline, resolve the output stem, and call `predict`. -/
def mainRun (args : Args) (env : Env) : RunResult :=
  match load_config env args.config with
  | .error e => ⟨mapExc e, false⟩
  | .ok config =>
    match getItem config "label_path" with
    | none => ⟨mapExc (.keyError "label_path"), false⟩
    | some label_path =>
      match load_labels env label_path with
      | .error e => ⟨mapExc e, false⟩
      | .ok _labels =>
        if !env.imageFolderExists then
          ⟨mapExc (.fileNotFound ("Image folder not found: " ++ args.image_folder)), false⟩
        else if !env.imageFolderIsDir then
          ⟨mapExc (.valueError ("Not a directory: " ++ args.image_folder)), false⟩
        else if env.imagePaths.isEmpty then
          ⟨.noImages, false⟩
        else
          let output_name := effectiveOutputName args.output config
          match env.pipelineInitExc with
          | some e => ⟨mapExc e, false⟩
          | none =>
            match resolveOutputStem output_name (parsePath args.image_folder) with
            | .error e => ⟨mapExc e, false⟩
            | .ok (stem, _mkdirTarget) =>
              match env.predictExc with
              | some e => ⟨mapExc e, true⟩
              | none =>
                ⟨.success (stem.toString ++ ".csv") (stem.toString ++ ".json"), true⟩

/-- Concrete run whose parsed configuration has the two required model paths
but no `label_path` key (fields in declaration order of `Env`). -/
def envNoLabelPath : Env :=
  ⟨true, .ok [("detector_path", "d.pt"), ("classifier_path", "c.pt")],
    true, ["dingo"], true, true, ["a.jpg"], none, none⟩

/-- Concrete run whose parsed configuration has neither required field. -/
def envMissingBoth : Env :=
  ⟨true, .ok [("label_path", "labels.txt")],
    true, ["dingo"], true, true, ["a.jpg"], none, none⟩

/-- Concrete label file mixing comments, blank lines and two labels. -/
def envLabels : Env :=
  ⟨true, .ok [], true, ["# species list", "", "  dingo", "quoll  ", "   "],
    true, true, [], none, none⟩

/-- Concrete label file holding only comment and blank lines. -/
def envOnlyComments : Env :=
  ⟨true, .ok [], true, ["# a", "", "   ", "  # b"], true, true, [], none, none⟩

/-- Concrete run whose configuration file does not exist. -/
def envNoConfigFile : Env :=
  ⟨false, .ok [], true, ["dingo"], true, true, ["a.jpg"], none, none⟩

/-- Concrete run that is fully valid but discovers zero images. -/
def envNoImages : Env :=
  ⟨true, .ok [("detector_path", "d.pt"), ("classifier_path", "c.pt"),
      ("label_path", "labels.txt")],
    true, ["dingo"], true, true, [], none, none⟩

/-!  Theorems: one per claim of the specification review, with witnesses and
counterexamples on concrete inputs. -/

/-- C10: for the requested output name "./results" (whose only directory
component is the current-directory marker), resolution deterministically
takes the bare-filename branch: `pathlib` normalises "./results" to
"results", whose parent prints as ".", so the stem is `image_root/results`
and no mkdir call is recorded. -/
theorem C10_dot_slash_results (root : PPath) :
    resolveOutputStem "./results" root = .ok (root.child "results", none) := rfl

/-- C10 witness: the "./results" resolution evaluated at a concrete root. -/
theorem C10_witness :
    resolveOutputStem "./results" (parsePath "imgs")
      = .ok ((parsePath "imgs").child "results", none) :=
  C10_dot_slash_results (parsePath "imgs")

/-- C9 counterexample: the claim says the resolved stem carries no suffix
even for a multi-extension name such as "a.tar.gz"; in fact `with_suffix('')`
strips only the last extension, so the stem's final component is "a.tar",
whose suffix is ".tar", not empty. -/
theorem C9_counterexample :
    resolveOutputStem "a.tar.gz" (parsePath "imgs")
      = .ok (PPath.mk false ["imgs", "a.tar"], none) ∧
    pySuffix (PPath.name (PPath.mk false ["imgs", "a.tar"])) = ".tar" ∧
    (".tar" : String) ≠ "" := ⟨rfl, rfl, by decide⟩

/-- C9 (amended): output-stem resolution strips exactly the LAST extension of
the final component (Python with_suffix('')), in both branches: the stem's
final component is always `stripExt` of the requested name's final component,
so a single-extension name yields a suffix-free stem but a multi-extension
name retains its inner extensions. -/
theorem C9_strip_last_extension (requested : String) (root : PPath) (m : String)
    (hlast : (parsePath requested).parts.getLast? = some m) :
    ∃ stem mk, resolveOutputStem requested root = .ok (stem, mk) ∧
      stem.name = stripExt m := by
  have hne : (parsePath requested).parts ≠ [] := by
    intro h; rw [h] at hlast; simp at hlast
  have hfalse : (parsePath requested).parts.isEmpty = false :=
    List.isEmpty_eq_false.mpr hne
  have hsl : (parsePath requested).stripLastExt
      = PPath.mk (parsePath requested).absolute
          ((parsePath requested).parts.dropLast ++ [stripExt m]) := by
    simp [PPath.stripLastExt, hlast]
  by_cases hdir : (parsePath requested).stripLastExt.parent.toString = "."
  · refine ⟨root.child (parsePath requested).stripLastExt.name, none, ?_, ?_⟩
    · simp [resolveOutputStem, PPath.withSuffixEmpty, hfalse, hdir]
    · simp [PPath.child, PPath.name, hsl, List.getLast?_concat]
  · refine ⟨(parsePath requested).stripLastExt,
      some (parsePath requested).stripLastExt.parent, ?_, ?_⟩
    · simp [resolveOutputStem, PPath.withSuffixEmpty, hfalse, hdir]
    · simp [PPath.name, hsl, List.getLast?_concat]

/-- C9 witness: the amended statement evaluated on "report.csv", whose stem
is suffix-free. -/
theorem C9_witness :
    resolveOutputStem "report.csv" (parsePath "imgs")
      = .ok (PPath.mk false ["imgs", "report"], none) := by
  obtain ⟨stem, mk, h1, h2⟩ :=
    C9_strip_last_extension "report.csv" (parsePath "imgs") "report.csv" rfl
  have h0 : (Except.ok (PPath.mk false ["imgs", "report"], (none : Option PPath))
      : Except PyExc (PPath × Option PPath)) = .ok (stem, mk) := h1
  rw [h1, ← h0]

/-- C8 counterexample: the claim says a supplied CLI override is always used;
with the empty-string override (a value `--output ""` can supply) Python's
`or` treats it as falsy and the config value wins instead. -/
theorem C8_counterexample :
    effectiveOutputName (some "") [("output_name", "fromconfig")] = "fromconfig" ∧
    effectiveOutputName (some "") [("output_name", "fromconfig")] ≠ "" :=
  ⟨rfl, by decide⟩

/-- C8 (amended): output-name precedence holds with the CLI clause restricted
to non-empty overrides: a non-empty CLI override is used; otherwise (no
override, or the falsy empty-string override) the config `output_name` value
is used when present, else the literal default "results". -/
theorem C8_output_name_precedence (cli : Option String) (config : Config) :
    (∀ s, cli = some s → s ≠ "" → effectiveOutputName cli config = s) ∧
    ((cli = none ∨ cli = some "") →
      (∀ v, getItem config "output_name" = some v →
        effectiveOutputName cli config = v) ∧
      (getItem config "output_name" = none →
        effectiveOutputName cli config = "results")) := by
  constructor
  · rintro s rfl hs
    simp [effectiveOutputName, hs]
  · rintro (rfl | rfl) <;>
      exact ⟨fun v hv => by simp [effectiveOutputName, getDefault, hv],
        fun hnone => by simp [effectiveOutputName, getDefault, hnone]⟩

/-- C8 witness: precedence evaluated at a concrete non-empty CLI override. -/
theorem C8_witness :
    effectiveOutputName (some "custom") [("output_name", "fromconfig")]
      = "custom" :=
  (C8_output_name_precedence (some "custom") [("output_name", "fromconfig")]).1
    "custom" rfl (by decide)

/-- C2 counterexample: with `detector_path` and `classifier_path` present but
`label_path` absent, the run does exit 1, but through the generic handler
("Unexpected error", a `KeyError`), not through the "configuration error"
category the claim asserts. -/
theorem C2_counterexample :
    (mainRun (Args.mk "imgs" "config.yaml" none) envNoLabelPath).outcome
      = Outcome.errUnexpected "KeyError: label_path" ∧
    Outcome.isConfigurationError
      (mainRun (Args.mk "imgs" "config.yaml" none) envNoLabelPath).outcome
      = false ∧
    exitCode (mainRun (Args.mk "imgs" "config.yaml" none) envNoLabelPath).outcome
      = 1 := ⟨rfl, rfl, rfl⟩

/-- C2 (amended): for every run whose configuration loads successfully (so
`detector_path` and `classifier_path` are present) but lacks `label_path`,
the subscript `config["label_path"]` raises a `KeyError`, which the `except`
ladder surfaces as an "Unexpected error" — not a "configuration error" — with
exit status 1, before any pipeline work. -/
theorem C2_missing_label_path_unexpected (args : Args) (env : Env)
    (config : Config)
    (hload : load_config env args.config = .ok config)
    (hmiss : getItem config "label_path" = none) :
    mainRun args env
      = RunResult.mk (Outcome.errUnexpected "KeyError: label_path") false ∧
    Outcome.isUnexpectedError (mainRun args env).outcome = true ∧
    exitCode (mainRun args env).outcome = 1 := by
  have h : mainRun args env
      = RunResult.mk (Outcome.errUnexpected "KeyError: label_path") false := by
    simp only [mainRun, hload, hmiss]
    rfl
  exact ⟨h, by rw [h]; rfl, by rw [h]; rfl⟩

/-- C2 witness: the amended statement evaluated on the concrete
`envNoLabelPath` run. -/
theorem C2_witness :
    mainRun (Args.mk "imgs2" "config.yaml" none) envNoLabelPath
      = RunResult.mk (Outcome.errUnexpected "KeyError: label_path") false :=
  (C2_missing_label_path_unexpected (Args.mk "imgs2" "config.yaml" none)
    envNoLabelPath [("detector_path", "d.pt"), ("classifier_path", "c.pt")]
    rfl rfl).1

/-- C1: output-stem resolution. (a) A requested name with no directory
component parses to a single relative part; its extension is stripped and the
stem is `image_root/stem-of-name`, with no mkdir. (b) A requested name whose
extension-stripped form has a real directory component (parent not printing
as ".") yields that stripped path as the stem, independent of the image root,
with mkdir recorded on its parent. (c) The recorded
mkdir(parents=True, exist_ok=True) makes every parent directory of the path
exist, recursively, and re-running it changes nothing (so it succeeds when
the directories already exist). -/
theorem C1_resolve_output_stem :
    (∀ (n m : String) (root : PPath),
      parsePath n = PPath.mk false [m] →
      resolveOutputStem n root = .ok (root.child (stripExt m), none)) ∧
    (∀ (n : String) (root root2 : PPath),
      (parsePath n).parts ≠ [] →
      (parsePath n).stripLastExt.parent.toString ≠ "." →
      resolveOutputStem n root
        = .ok ((parsePath n).stripLastExt,
            some (parsePath n).stripLastExt.parent) ∧
      resolveOutputStem n root = resolveOutputStem n root2) ∧
    (∀ (fs : List PPath) (d : PPath),
      (∀ a ∈ d.ancestors, dirExists (runMkdirParents fs d) a) ∧
      (∀ q, dirExists (runMkdirParents (runMkdirParents fs d) d) q ↔
        dirExists (runMkdirParents fs d) q)) := by
  refine ⟨?_, ?_, ?_⟩
  · intro n m root h
    simp [resolveOutputStem, PPath.withSuffixEmpty, h, PPath.stripLastExt,
      PPath.parent, PPath.toString, PPath.name, PPath.child]
  · intro n root root2 hne hdir
    have hfalse : (parsePath n).parts.isEmpty = false :=
      List.isEmpty_eq_false.mpr hne
    have hres : ∀ r : PPath, resolveOutputStem n r
        = .ok ((parsePath n).stripLastExt,
            some (parsePath n).stripLastExt.parent) := by
      intro r
      simp [resolveOutputStem, PPath.withSuffixEmpty, hfalse, hdir]
    exact ⟨hres root, (hres root).trans (hres root2).symm⟩
  · intro fs d
    constructor
    · intro a ha
      simp [dirExists, runMkdirParents, List.mem_append, ha]
    · intro q
      simp [dirExists, runMkdirParents, List.mem_append]

/-- C1 witness: both branches evaluated concretely — "foo.csv" resolves to
`/data/images/foo` with no mkdir; "out/results" resolves to `out/results`
with mkdir on `out`, whose directory then exists. -/
theorem C1_witness :
    resolveOutputStem "foo.csv" (parsePath "/data/images")
      = .ok (PPath.mk true ["data", "images", "foo"], none) ∧
    resolveOutputStem "out/results" (parsePath "/data/images")
      = .ok (PPath.mk false ["out", "results"], some (PPath.mk false ["out"])) ∧
    dirExists (runMkdirParents [] (PPath.mk false ["out"]))
      (PPath.mk false ["out"]) := by
  refine ⟨?_, ?_, ?_⟩
  · exact C1_resolve_output_stem.1 "foo.csv" "foo.csv" (parsePath "/data/images") rfl
  · exact (C1_resolve_output_stem.2.1 "out/results" (parsePath "/data/images")
      (parsePath "/x") (by decide) (by decide)).1
  · exact (C1_resolve_output_stem.2.2 [] (PPath.mk false ["out"])).1
      (PPath.mk false ["out"]) (by decide)

/-- C3: with the config file present and parsed, the required-field check of
load_config (a) characterises its missing-field list as exactly the required
fields absent from the mapping, (b) fails with a ValueError listing all of
them whenever that list is non-empty, (c) accepts no mapping missing either
of detector_path/classifier_path, and (d) returns the mapping unchanged when
both are present. -/
theorem C3_load_config_exact_missing (env : Env) (config : Config)
    (config_path : String)
    (hex : env.configFileExists = true)
    (hparse : env.parseResult = .ok config) :
    (∀ f, f ∈ requiredFields.filter (fun g => !(hasKey config g)) ↔
      f ∈ requiredFields ∧ hasKey config f = false) ∧
    (requiredFields.filter (fun g => !(hasKey config g)) ≠ [] →
      load_config env config_path = .error (.valueError
        ("Missing required config fields: " ++ String.intercalate ", "
          (requiredFields.filter (fun g => !(hasKey config g)))))) ∧
    (¬ (hasKey config "detector_path" = true ∧
        hasKey config "classifier_path" = true) →
      ∀ c2, load_config env config_path ≠ .ok c2) ∧
    (hasKey config "detector_path" = true →
      hasKey config "classifier_path" = true →
      load_config env config_path = .ok config) := by
  have herr : requiredFields.filter (fun g => !(hasKey config g)) ≠ [] →
      load_config env config_path = .error (.valueError
        ("Missing required config fields: " ++ String.intercalate ", "
          (requiredFields.filter (fun g => !(hasKey config g))))) := by
    intro hne
    have hfalse : (requiredFields.filter (fun g => !(hasKey config g))).isEmpty
        = false := List.isEmpty_eq_false.mpr hne
    simp [load_config, hex, hparse, hfalse]
  refine ⟨?_, herr, ?_, ?_⟩
  · intro f
    simp [List.mem_filter]
  · intro hnot c2
    have hfil : requiredFields.filter (fun g => !(hasKey config g)) ≠ [] := by
      cases hd : hasKey config "detector_path" <;>
        cases hc : hasKey config "classifier_path" <;>
        simp [requiredFields, hd, hc] at hnot ⊢
    rw [herr hfil]
    intro h
    exact Except.noConfusion h
  · intro hd hc
    simp [load_config, hex, hparse, requiredFields, hd, hc]

/-- C3 witness: a mapping missing both required fields is rejected with a
message listing both, in order. -/
theorem C3_witness :
    load_config envMissingBoth "config.yaml"
      = .error (.valueError
          "Missing required config fields: detector_path, classifier_path") :=
  (C3_load_config_exact_missing envMissingBoth [("label_path", "labels.txt")]
    "config.yaml" rfl rfl).2.1 (by decide)

/-- C4: for every existing label file with at least one line that survives
stripping and comment filtering, load_labels returns the kept lines, each
stripped, as a sublist of the stripped file lines (so in original order with
no reordering or sorting), containing exactly the kept stripped lines, and
preserving multiplicities (no deduplication). -/
theorem C4_load_labels_order (env : Env) (label_path : String)
    (hex : env.labelFileExists = true)
    (hne : ∃ l ∈ env.labelLines, keepLabelLine (pyStrip l) = true) :
    ∃ labels, load_labels env label_path = .ok labels ∧
      labels.Sublist (env.labelLines.map pyStrip) ∧
      (∀ s, s ∈ labels ↔ s ∈ env.labelLines.map pyStrip ∧
        keepLabelLine s = true) ∧
      (∀ s, keepLabelLine s = true →
        labels.count s = (env.labelLines.map pyStrip).count s) := by
  have hmem : ∃ a ∈ env.labelLines.map pyStrip, keepLabelLine a = true := by
    obtain ⟨l, hl, hk⟩ := hne
    exact ⟨pyStrip l, List.mem_map_of_mem pyStrip hl, hk⟩
  have hnil : (env.labelLines.map pyStrip).filter keepLabelLine ≠ [] := by
    obtain ⟨a, ha, hk⟩ := hmem
    exact List.ne_nil_of_mem (List.mem_filter.mpr ⟨ha, hk⟩)
  have hfalse : ((env.labelLines.map pyStrip).filter keepLabelLine).isEmpty
      = false := List.isEmpty_eq_false.mpr hnil
  refine ⟨(env.labelLines.map pyStrip).filter keepLabelLine, ?_, ?_, ?_, ?_⟩
  · simp [load_labels, hex, hfalse]
  · exact List.filter_sublist _
  · intro s
    exact List.mem_filter
  · intro s hs
    exact List.count_filter hs

/-- C4 witness: the concrete label file yields exactly ["dingo", "quoll"] in
file order. -/
theorem C4_witness :
    load_labels envLabels "labels.txt" = .ok ["dingo", "quoll"] ∧
    List.Sublist ["dingo", "quoll"] (envLabels.labelLines.map pyStrip) := by
  obtain ⟨labels, h1, h2, h3, h4⟩ :=
    C4_load_labels_order envLabels "labels.txt" rfl
      ⟨"  dingo", by decide, by decide⟩
  have h0 : (Except.ok ["dingo", "quoll"] : Except PyExc (List String))
      = Except.ok labels := h1
  injection h0 with h0'
  subst h0'
  exact ⟨h1, h2⟩

/-- C5: for every existing label file whose lines are all blank or
comment-starting after stripping, load_labels raises the empty-label-set
ValueError rather than returning an empty list. -/
theorem C5_load_labels_all_filtered (env : Env) (label_path : String)
    (hex : env.labelFileExists = true)
    (hall : ∀ l ∈ env.labelLines, keepLabelLine (pyStrip l) = false) :
    load_labels env label_path
      = .error (.valueError ("No labels found in " ++ label_path)) := by
  have hnil : (env.labelLines.map pyStrip).filter keepLabelLine = [] := by
    rw [List.filter_eq_nil_iff]
    intro a ha
    obtain ⟨l, hl, rfl⟩ := List.mem_map.mp ha
    simp [hall l hl]
  simp [load_labels, hex, hnil]

/-- C5 witness: a concrete comment-and-blank-only file is rejected. -/
theorem C5_witness :
    load_labels envOnlyComments "labels.txt"
      = .error (.valueError "No labels found in labels.txt") :=
  C5_load_labels_all_filtered envOnlyComments "labels.txt" rfl (by decide)

/-- C6: for every run that reaches image discovery (config, labels and the
image folder all valid) and finds zero images, main takes the warning branch:
the outcome is the no-images clean exit with status 0 and the pipeline's
predict is never invoked. -/
theorem C6_no_images_clean_exit (args : Args) (env : Env) (config : Config)
    (label_path : String) (labels : List String)
    (h1 : load_config env args.config = .ok config)
    (h2 : getItem config "label_path" = some label_path)
    (h3 : load_labels env label_path = .ok labels)
    (h4 : env.imageFolderExists = true)
    (h5 : env.imageFolderIsDir = true)
    (h6 : env.imagePaths = []) :
    mainRun args env = RunResult.mk Outcome.noImages false ∧
    (mainRun args env).predictCalled = false ∧
    exitCode (mainRun args env).outcome = 0 := by
  have h : mainRun args env = RunResult.mk Outcome.noImages false := by
    simp [mainRun, h1, h2, h3, h4, h5, h6]
  exact ⟨h, by rw [h], by rw [h]; rfl⟩

/-- C6 witness: the fully valid concrete run with an empty image list exits
cleanly without a predict call. -/
theorem C6_witness :
    mainRun (Args.mk "imgs" "config.yaml" none) envNoImages
      = RunResult.mk Outcome.noImages false :=
  (C6_no_images_clean_exit (Args.mk "imgs" "config.yaml" none) envNoImages
    [("detector_path", "d.pt"), ("classifier_path", "c.pt"),
      ("label_path", "labels.txt")]
    "labels.txt" ["dingo"] rfl rfl rfl rfl rfl rfl).1

/-- C7: the exception taxonomy of main. The except ladder maps
FileNotFoundError to the "file not found" outcome, ValueError to the
"configuration error" outcome, and anything else (including the KeyError
from a missing label_path) to the "unexpected error" outcome; every mapped
exception exits 1; every run terminates in success, the no-images warning,
or an outcome in the image of exactly this ladder with exit 1 — there is no
retry path; and each category propagates through mainRun as the claim's
examples say: a missing config file surfaces as "file not found", a
non-directory image folder as "configuration error", and an arbitrary
exception from the pipeline's predict call as "unexpected error". -/
theorem C7_exception_taxonomy :
    (∀ m, mapExc (PyExc.fileNotFound m) = Outcome.errFileNotFound m) ∧
    (∀ m, mapExc (PyExc.valueError m) = Outcome.errConfiguration m) ∧
    (∀ k, mapExc (PyExc.keyError k)
      = Outcome.errUnexpected ("KeyError: " ++ k)) ∧
    (∀ m, mapExc (PyExc.other m) = Outcome.errUnexpected m) ∧
    (∀ e, exitCode (mapExc e) = 1) ∧
    (∀ args env, (mainRun args env).outcome = Outcome.noImages ∨
      (∃ s j, (mainRun args env).outcome = Outcome.success s j) ∨
      (∃ e, (mainRun args env).outcome = mapExc e ∧
        exitCode (mainRun args env).outcome = 1)) ∧
    (∀ args env, env.configFileExists = false →
      mainRun args env = RunResult.mk
        (Outcome.errFileNotFound ("Config file not found: " ++ args.config))
        false) ∧
    (∀ args env config label_path labels,
      load_config env args.config = .ok config →
      getItem config "label_path" = some label_path →
      load_labels env label_path = .ok labels →
      env.imageFolderExists = true → env.imageFolderIsDir = false →
      mainRun args env = RunResult.mk
        (Outcome.errConfiguration ("Not a directory: " ++ args.image_folder))
        false) ∧
    (∀ args env config label_path labels stem mk m,
      load_config env args.config = .ok config →
      getItem config "label_path" = some label_path →
      load_labels env label_path = .ok labels →
      env.imageFolderExists = true → env.imageFolderIsDir = true →
      env.imagePaths ≠ [] → env.pipelineInitExc = none →
      resolveOutputStem (effectiveOutputName args.output config)
        (parsePath args.image_folder) = .ok (stem, mk) →
      env.predictExc = some (PyExc.other m) →
      mainRun args env = RunResult.mk (Outcome.errUnexpected m) true) := by
  refine ⟨fun m => rfl, fun m => rfl, fun k => rfl, fun m => rfl,
    ?_, ?_, ?_, ?_, ?_⟩
  · intro e
    cases e <;> rfl
  · intro args env
    cases h : (mainRun args env).outcome with
    | success s j => exact Or.inr (Or.inl ⟨s, j, rfl⟩)
    | noImages => exact Or.inl rfl
    | errFileNotFound m =>
      exact Or.inr (Or.inr ⟨PyExc.fileNotFound m, rfl, rfl⟩)
    | errConfiguration m =>
      exact Or.inr (Or.inr ⟨PyExc.valueError m, rfl, rfl⟩)
    | errUnexpected m =>
      exact Or.inr (Or.inr ⟨PyExc.other m, rfl, rfl⟩)
  · intro args env h
    have hc : load_config env args.config
        = .error (.fileNotFound ("Config file not found: " ++ args.config)) := by
      simp [load_config, h]
    simp [mainRun, hc, mapExc]
  · intro args env config label_path labels h1 h2 h3 h4 h5
    simp [mainRun, h1, h2, h3, h4, h5, mapExc]
  · intro args env config label_path labels stem mk m h1 h2 h3 h4 h5 h6 h7 h8 h9
    have h6e : env.imagePaths.isEmpty = false := List.isEmpty_eq_false.mpr h6
    simp [mainRun, h1, h2, h3, h4, h5, h6e, h7, h8, h9, mapExc]

/-- C7 witness: a run with no config file surfaces as "file not found" with
exit status 1. -/
theorem C7_witness :
    mainRun (Args.mk "imgs" "missing.yaml" none) envNoConfigFile
      = RunResult.mk
          (Outcome.errFileNotFound "Config file not found: missing.yaml")
          false :=
  (C7_exception_taxonomy.2.2.2.2.2.2.1)
    (Args.mk "imgs" "missing.yaml" none) envNoConfigFile rfl

end AWC
